import Mathlib

/-!
# Verification of the SEE ALL quote/invoice lifecycle engine

Shallow embedding of the core of `main_application.py` (class `DatabaseManager`
and the `Quote`/`SiteItem`/`QuoteItem` dataclasses) together with proofs about
the documented behaviour of the numbering engine, the quote → invoice
conversion, saving, deletion, and the derived totals.

The SQLite store is modelled as an explicit record of tables (lists of rows,
in insertion order); each `DatabaseManager` method becomes a state-passing
function.  The current wall-clock month/year consumed by
`datetime.datetime.now().strftime("%m%Y")` is passed in as an explicit
`month_year : String` argument.  Monetary `REAL` columns are modelled as `ℚ`.
`sqlite3` behaviour that matters here and is modelled faithfully:
  * the `UNIQUE` constraint on `quotes.number` makes a colliding `INSERT`
    fail, rolling back the enclosing transaction (`with sqlite3.connect`),
  * `generate_quote_number` opens its *own* connection and commits the
    counter update before returning, independently of any caller transaction.
-/

deriving instance DecidableEq for Except

namespace SeeAll

/-! ## Decimal rendering (Python `"{:d}"` / `"{:03d}"` formatting) -/

/-- The decimal digit characters. -/
def digitChar (n : Nat) : Char :=
  match n with
  | 0 => '0' | 1 => '1' | 2 => '2' | 3 => '3' | 4 => '4'
  | 5 => '5' | 6 => '6' | 7 => '7' | 8 => '8' | 9 => '9'
  | _ => '*'

/-- Big-endian decimal digits of `n`, with explicit fuel (first argument);
`fuel > n` is always enough. -/
def decDigitsAux : Nat → Nat → List Char
  | 0, _ => []
  | fuel + 1, n =>
    if n < 10 then [digitChar n]
    else decDigitsAux fuel (n / 10) ++ [digitChar (n % 10)]

/-- Big-endian decimal digits of `n` (Python `str(n)` for a nonnegative int). -/
def decDigits (n : Nat) : List Char := decDigitsAux (n + 1) n

/-- Python `"{:03d}".format n` as a list of characters: zero-pad to at least
three digits, growing wider as needed. -/
def padList (n : Nat) : List Char :=
  List.replicate (3 - (decDigits n).length) '0' ++ decDigits n

/-- Python `"{:03d}".format n` as a string. -/
def pad3 (n : Nat) : String := ⟨padList n⟩

/-! ## Client-name normalization (`re.sub(r"[^A-Za-z0-9]", "", name.upper())[:10]`) -/

/-- Characters kept by the regex `[A-Za-z0-9]`. -/
def isAlnumChar (c : Char) : Bool :=
  ('A' ≤ c && c ≤ 'Z') || ('a' ≤ c && c ≤ 'z') || ('0' ≤ c && c ≤ '9')

/-- `re.sub(r"[^A-Za-z0-9]", "", client_name.upper())[:10]`. -/
def cleanName (client_name : String) : String :=
  ⟨(((client_name.data.map Char.toUpper).filter isAlnumChar).take 10)⟩

/-! ## Rows of the SQLite tables -/

/-- A row of the `clients` table (the `created_at` column, server-defaulted
and unused by the operations modelled here, is omitted). -/
structure ClientRow where
  id : Nat
  name : String
  siret : String
  address : String
  email : String
  phone : String
  deriving DecidableEq

/-- A row of the `quotes` table (one document: quote or invoice; the
`created_at` column, server-defaulted, is omitted). -/
structure DocRow where
  id : Nat
  number : String
  client_id : Nat
  typology : String
  quote_date : Option String
  intervention_date : Option String
  is_invoice : Bool
  invoice_number : Option String
  order_number : String
  site_number : String
  site_address : String
  is_invoiced : Bool
  linked_invoice_id : Option Nat
  deriving DecidableEq

/-- A row of the `quote_sites` table (its own surrogate `id` is never read by
the code and is omitted; rows are kept in insertion order). -/
structure SiteRow where
  quote_id : Nat
  site_number : String
  address : String
  postal_code : String
  city : String
  latitude : String
  longitude : String
  description : String
  price_ht : ℚ
  deriving DecidableEq

/-- A row of the `quote_items` table (legacy items). -/
structure ItemRow where
  quote_id : Nat
  description : String
  price_ht : ℚ
  quantity : Int
  deriving DecidableEq

/-- A row of the `counters` table, `UNIQUE(client_name, month_year)`. -/
structure CounterRow where
  client_name : String
  month_year : String
  counter : Nat
  deriving DecidableEq

/-- The whole SQLite database file.  `next_doc_id` models the
`AUTOINCREMENT` source for `quotes.id`. -/
structure DB where
  clients : List ClientRow
  quotes : List DocRow
  quote_sites : List SiteRow
  quote_items : List ItemRow
  counters : List CounterRow
  next_doc_id : Nat
  deriving DecidableEq

/-! ## Counter operations inside `generate_quote_number` -/

/-- `WHERE client_name = ? AND month_year = ?`. -/
def keyMatch (name my : String) (c : CounterRow) : Bool :=
  c.client_name == name && c.month_year == my

/-- The `UPDATE counters SET counter = counter + 1 WHERE …` applied to one row. -/
def bumpIf (name my : String) (c : CounterRow) : CounterRow :=
  if keyMatch name my c then { c with counter := c.counter + 1 } else c

/-- `INSERT OR IGNORE … VALUES (?, ?, 0)` followed by
`UPDATE counters SET counter = counter + 1 WHERE …`. -/
def bumpCounters (cs : List CounterRow) (name my : String) : List CounterRow :=
  let cs1 := if cs.any (keyMatch name my) then cs else cs ++ [⟨name, my, 0⟩]
  cs1.map (bumpIf name my)

/-- `SELECT counter FROM counters WHERE …` (+ `fetchone`), reading 0 if the
row is absent (after the insert-or-ignore it never is). -/
def readCounter (cs : List CounterRow) (name my : String) : Nat :=
  ((cs.find? (keyMatch name my)).map CounterRow.counter).getD 0

/-- `DatabaseManager.generate_quote_number(client_name, is_invoice)`.
`month_year` is `now.strftime("%m%Y")`.  Opens its own connection and
commits: the returned `DB` reflects a durably committed counter update. -/
def generate_quote_number (db : DB) (client_name : String) (is_invoice : Bool)
    (month_year : String) : String × DB :=
  let pfx := if is_invoice then "FA" else "SA"
  let clean := cleanName client_name
  let cs := bumpCounters db.counters clean month_year
  let c := readCounter cs clean month_year
  (pfx ++ "." ++ clean ++ "." ++ month_year ++ pad3 c, { db with counters := cs })

/-! ## In-memory dataclasses (`SiteItem`, `QuoteItem`, `Quote`) and totals -/

/-- The `SiteItem` dataclass. -/
structure SiteItem where
  site_number : String := ""
  address : String := ""
  postal_code : String := ""
  city : String := ""
  latitude : String := ""
  longitude : String := ""
  description : String := ""
  price_ht : ℚ := 0
  deriving DecidableEq

/-- `SiteItem.total_ht` property. -/
def SiteItem.total_ht (s : SiteItem) : ℚ := s.price_ht

/-- The `QuoteItem` dataclass (legacy line items). -/
structure QuoteItem where
  description : String := ""
  price_ht : ℚ := 0
  quantity : Int := 1
  deriving DecidableEq

/-- `QuoteItem.total_ht` property: `price_ht * quantity`. -/
def QuoteItem.total_ht (it : QuoteItem) : ℚ := it.price_ht * (it.quantity : ℚ)

/-- The `Quote` dataclass (a document: quote or invoice). -/
structure Quote where
  id : Option Nat := none
  number : String := ""
  client_id : Nat := 0
  client : Option ClientRow := none
  typology : String := ""
  sites : List SiteItem := []
  items : List QuoteItem := []
  quote_date : Option String := none
  intervention_date : Option String := none
  is_invoice : Bool := false
  invoice_number : Option String := none
  order_number : String := ""
  site_number : String := ""
  site_address : String := ""
  is_invoiced : Bool := false
  linked_invoice_id : Option Nat := none
  deriving DecidableEq

/-- `BUSINESS_CONFIG['default_vat_rate'] = 0.20` from `config.py`. -/
def vat_rate : ℚ := 1 / 5

/-- `Quote.total_ht` property: sites total plus legacy items total. -/
def Quote.total_ht (q : Quote) : ℚ :=
  (q.sites.map SiteItem.total_ht).sum + (q.items.map QuoteItem.total_ht).sum

/-- `Quote.total_tva` property: `total_ht * vat_rate`. -/
def Quote.total_tva (q : Quote) : ℚ := q.total_ht * vat_rate

/-- `Quote.total_ttc` property: `total_ht + total_tva`. -/
def Quote.total_ttc (q : Quote) : ℚ := q.total_ht + q.total_tva

/-! ## `DatabaseManager.save_quote` -/

/-- The `INSERT INTO quote_sites … VALUES (quote_id, …)` row built from an
in-memory `SiteItem`. -/
def siteToRow (qid : Nat) (s : SiteItem) : SiteRow :=
  ⟨qid, s.site_number, s.address, s.postal_code, s.city, s.latitude,
   s.longitude, s.description, s.price_ht⟩

/-- The `INSERT INTO quote_items …` row built from an in-memory `QuoteItem`. -/
def itemToRow (qid : Nat) (it : QuoteItem) : ItemRow :=
  ⟨qid, it.description, it.price_ht, it.quantity⟩

/-- Failure of `save_quote`: the `UNIQUE` constraint on `quotes.number`
rejecting the `INSERT` of a new document (sqlite `IntegrityError`). -/
inductive SaveError where
  | uniqueViolation
  deriving DecidableEq

/-- `DatabaseManager.save_quote(quote)`.  New documents (`id is None`) are
inserted with a fresh id; existing ids are updated in place (the `UPDATE`
does not touch `number` or `is_invoice`), then the children are
delete-and-reinserted.  The whole call is one transaction: on the unique
violation nothing is written. -/
def save_quote (db : DB) (q : Quote) : Except SaveError (Nat × DB) :=
  match q.id with
  | none =>
    if db.quotes.any (fun d => d.number == q.number) then
      .error .uniqueViolation
    else
      let qid := db.next_doc_id
      let row : DocRow :=
        ⟨qid, q.number, q.client_id, q.typology, q.quote_date,
         q.intervention_date, q.is_invoice, q.invoice_number, q.order_number,
         q.site_number, q.site_address, q.is_invoiced, q.linked_invoice_id⟩
      .ok (qid, { db with
        quotes := db.quotes ++ [row],
        quote_sites := db.quote_sites ++ q.sites.map (siteToRow qid),
        quote_items := db.quote_items ++ q.items.map (itemToRow qid),
        next_doc_id := qid + 1 })
  | some qid =>
    let quotes1 := db.quotes.map (fun d =>
      if d.id == qid then
        { d with client_id := q.client_id, typology := q.typology,
                 quote_date := q.quote_date,
                 intervention_date := q.intervention_date,
                 invoice_number := q.invoice_number,
                 order_number := q.order_number, site_number := q.site_number,
                 site_address := q.site_address, is_invoiced := q.is_invoiced,
                 linked_invoice_id := q.linked_invoice_id }
      else d)
    .ok (qid, { db with
      quotes := quotes1,
      quote_sites := db.quote_sites.filter (fun s => !(s.quote_id == qid))
        ++ q.sites.map (siteToRow qid),
      quote_items := db.quote_items.filter (fun it => !(it.quote_id == qid))
        ++ q.items.map (itemToRow qid) })

/-! ## `DatabaseManager.delete_quote` -/

/-- The two `raise ValueError(…)` outcomes of `delete_quote`, carrying the
data interpolated into the message. -/
inductive DeleteError where
  | notFound
  | invoicedConflict (message : String)
  deriving DecidableEq

/-- The message of the `ValueError` raised when deleting an invoiced quote;
its only varying datum is the quote's own number. -/
def conflictMessage (quote_number : String) : String :=
  "Impossible de supprimer le devis \x27" ++ quote_number ++
  "\x27 : il a été converti en facture. Veuillez d\x27abord supprimer la facture correspondante."

/-- `DatabaseManager.delete_quote(quote_id)`: blocks deletion of an invoiced
quote; for an invoice, first resets every quote whose `linked_invoice_id`
points at it; then cascade-deletes items, sites and the document row. -/
def delete_quote (db : DB) (quote_id : Nat) : Except DeleteError DB :=
  match db.quotes.find? (fun d => d.id == quote_id) with
  | none => .error .notFound
  | some row =>
    if !row.is_invoice && row.is_invoiced then
      .error (.invoicedConflict (conflictMessage row.number))
    else
      let quotes1 :=
        if row.is_invoice then
          db.quotes.map (fun d =>
            if d.linked_invoice_id == some quote_id then
              { d with is_invoiced := false, linked_invoice_id := none }
            else d)
        else db.quotes
      .ok { db with
        quotes := quotes1.filter (fun d => !(d.id == quote_id)),
        quote_items := db.quote_items.filter (fun it => !(it.quote_id == quote_id)),
        quote_sites := db.quote_sites.filter (fun s => !(s.quote_id == quote_id)) }

/-! ## `DatabaseManager.convert_quote_to_invoice` -/

/-- `SELECT * FROM clients WHERE id = ?` (+ `fetchone`). -/
def get_client_by_id (db : DB) (client_id : Nat) : Option ClientRow :=
  db.clients.find? (fun c => c.id == client_id)

/-- Failures of `convert_quote_to_invoice`:
  * `notFound`: the explicit `raise ValueError("Quote not found")`;
  * `clientMissing`: `get_client_by_id` returned `None` and `client.name`
    raises `AttributeError` (before anything is written);
  * `uniqueViolation`: the `UNIQUE` constraint on `quotes.number` rejects the
    `INSERT` of the invoice (sqlite `IntegrityError`), rolling back the
    conversion transaction — but not the already committed counter update. -/
inductive ConvError where
  | notFound
  | clientMissing
  | uniqueViolation
  deriving DecidableEq

/-- `DatabaseManager.convert_quote_to_invoice(quote_id, order_number,
intervention_date)`.  Returns the outcome together with the database state
that is durably on disk afterwards. -/
def convert_quote_to_invoice (db : DB) (quote_id : Nat) (order_number : String)
    (intervention_date : Option String) (month_year : String) :
    Except ConvError String × DB :=
  match db.quotes.find? (fun d => d.id == quote_id) with
  | none => (.error .notFound, db)
  | some qrow =>
    match get_client_by_id db qrow.client_id with
    | none => (.error .clientMissing, db)
    | some client =>
      let gen := generate_quote_number db client.name true month_year
      let inv_number := gen.1
      let db1 := gen.2
      if db1.quotes.any (fun d => d.number == inv_number) then
        (.error .uniqueViolation, db1)
      else
        let invoice_id := db1.next_doc_id
        let invRow : DocRow :=
          ⟨invoice_id, inv_number, qrow.client_id, qrow.typology,
           qrow.quote_date, intervention_date, true, some inv_number,
           order_number, qrow.site_number, qrow.site_address, false, none⟩
        let quotes1 := db1.quotes ++ [invRow]
        let sites1 := db1.quote_sites ++
          (db1.quote_sites.filter (fun s => s.quote_id == quote_id)).map
            (fun s => { s with quote_id := invoice_id })
        let items1 := db1.quote_items ++
          (db1.quote_items.filter (fun it => it.quote_id == quote_id)).map
            (fun it => { it with quote_id := invoice_id })
        let quotes2 := quotes1.map (fun d =>
          if d.id == quote_id then
            { d with is_invoiced := true, linked_invoice_id := some invoice_id }
          else d)
        (.ok inv_number,
         { db1 with quotes := quotes2, quote_sites := sites1,
                    quote_items := items1, next_doc_id := invoice_id + 1 })

/-! ## Well-formedness of a database state -/

/-- Invariants guaranteed by the schema (`id` primary key, `number UNIQUE`,
`AUTOINCREMENT` ids below the allocator). -/
def WF (db : DB) : Prop :=
  (db.quotes.map DocRow.id).Nodup ∧ (db.quotes.map DocRow.number).Nodup ∧
    ∀ d ∈ db.quotes, d.id < db.next_doc_id

instance (db : DB) : Decidable (WF db) := by unfold WF; infer_instance

/-! ## Lemmas about decimal rendering and `pad3` -/

theorem decDigitsAux_congr : ∀ (f g n : Nat), n < f → n < g → decDigitsAux f n = decDigitsAux g n := by
  intro f
  induction f with
  | zero => intro g n hf _; exact absurd hf (Nat.not_lt_zero n)
  | succ f ih =>
    intro g n hf hg
    cases g with
    | zero => exact absurd hg (Nat.not_lt_zero n)
    | succ g =>
      simp only [decDigitsAux]
      by_cases h10 : n < 10
      · simp [h10]
      · have hpos : 0 < n := by omega
        have hdiv : n / 10 < n := Nat.div_lt_self hpos (by omega)
        rw [if_neg h10, if_neg h10,
          ih g (n / 10) (by omega) (by omega)]

theorem decDigits_eq (n : Nat) :
    decDigits n = if n < 10 then [digitChar n]
      else decDigits (n / 10) ++ [digitChar (n % 10)] := by
  by_cases h10 : n < 10
  · simp [decDigits, decDigitsAux, h10]
  · have hpos : 0 < n := by omega
    have hdiv : n / 10 < n := Nat.div_lt_self hpos (by omega)
    rw [if_neg h10]
    show decDigitsAux (n + 1) n = _
    simp only [decDigitsAux, if_neg h10]
    rw [decDigitsAux_congr n (n / 10 + 1) (n / 10) (by omega) (by omega)]
    rfl

/-- Folding a decimal reading over a character list, with accumulator. -/
def listValFrom (a : Nat) (l : List Char) : Nat :=
  l.foldl (fun x c => 10 * x + (c.toNat - 48)) a

theorem listValFrom_append (a : Nat) (l l' : List Char) :
    listValFrom a (l ++ l') = listValFrom (listValFrom a l) l' :=
  List.foldl_append _ _ _ _

theorem digitChar_val : ∀ d, d < 10 → (digitChar d).toNat - 48 = d := by decide

theorem listValFrom_decDigits (n : Nat) :
    ∀ a, listValFrom a (decDigits n) = a * 10 ^ (decDigits n).length + n := by
  induction n using Nat.strong_induction_on with
  | _ n ih =>
    intro a
    rw [decDigits_eq n]
    by_cases h10 : n < 10
    · rw [if_pos h10]
      show 10 * a + ((digitChar n).toNat - 48) = a * 10 ^ ([digitChar n].length) + n
      rw [digitChar_val n h10]
      simp [Nat.mul_comm]
    · rw [if_neg h10]
      have hpos : 0 < n := by omega
      have hdiv : n / 10 < n := Nat.div_lt_self hpos (by omega)
      rw [listValFrom_append, ih (n / 10) hdiv a]
      simp only [listValFrom, List.foldl, List.length_append, List.length_singleton]
      rw [digitChar_val (n % 10) (Nat.mod_lt n (by omega))]
      calc 10 * (a * 10 ^ (decDigits (n / 10)).length + n / 10) + n % 10
          = a * (10 ^ (decDigits (n / 10)).length * 10) +
              (10 * (n / 10) + n % 10) := by ring
        _ = a * 10 ^ ((decDigits (n / 10)).length + 1) + n := by
              rw [pow_succ, Nat.div_add_mod]

theorem listValFrom_replicate_zero : ∀ k, listValFrom 0 (List.replicate k '0') = 0 := by
  intro k
  induction k with
  | zero => rfl
  | succ k ih => simpa [List.replicate, listValFrom, List.foldl] using ih

theorem listValFrom_padList (n : Nat) : listValFrom 0 (padList n) = n := by
  unfold padList
  rw [listValFrom_append, listValFrom_replicate_zero, listValFrom_decDigits]
  simp

theorem padList_inj {m n : Nat} (h : padList m = padList n) : m = n := by
  have hm := listValFrom_padList m
  rw [h, listValFrom_padList] at hm
  exact hm.symm

theorem pad3_inj {m n : Nat} (h : pad3 m = pad3 n) : m = n :=
  padList_inj (congrArg String.data h)

theorem three_le_pad3_length (n : Nat) : 3 ≤ (pad3 n).length := by
  show 3 ≤ (padList n).length
  unfold padList
  rw [List.length_append, List.length_replicate]
  omega

/-! ## Lemmas about the counter table -/

theorem bumpIf_client_name (name my : String) (c : CounterRow) :
    (bumpIf name my c).client_name = c.client_name := by
  unfold bumpIf; split <;> rfl

theorem bumpIf_month_year (name my : String) (c : CounterRow) :
    (bumpIf name my c).month_year = c.month_year := by
  unfold bumpIf; split <;> rfl

theorem keyMatch_bumpIf (k m n y : String) (c : CounterRow) :
    keyMatch k m (bumpIf n y c) = keyMatch k m c := by
  unfold keyMatch
  rw [bumpIf_client_name, bumpIf_month_year]

theorem find?_map_bumpIf (k m n y : String) (cs : List CounterRow) :
    (cs.map (bumpIf n y)).find? (keyMatch k m) =
      (cs.find? (keyMatch k m)).map (bumpIf n y) := by
  rw [List.find?_map]
  have hfun : (keyMatch k m ∘ bumpIf n y) = keyMatch k m :=
    funext fun c => keyMatch_bumpIf k m n y c
  rw [hfun]

theorem find?_eq_none_of_any_false {cs : List CounterRow} {k m : String}
    (h : cs.any (keyMatch k m) = false) : cs.find? (keyMatch k m) = none := by
  rw [List.find?_eq_none]
  intro x hx hpx
  have : cs.any (keyMatch k m) = true := List.any_eq_true.mpr ⟨x, hx, hpx⟩
  rw [h] at this
  cases this

theorem readCounter_bump_self (cs : List CounterRow) (k m : String) :
    readCounter (bumpCounters cs k m) k m = readCounter cs k m + 1 := by
  unfold bumpCounters readCounter
  by_cases h : cs.any (keyMatch k m)
  · simp only [if_pos h, find?_map_bumpIf]
    rw [List.any_eq_true] at h
    obtain ⟨x, hx, hpx⟩ := h
    rcases hf : cs.find? (keyMatch k m) with _ | c
    · rw [List.find?_eq_none] at hf
      exact absurd hpx (hf x hx)
    · have hc : keyMatch k m c = true := List.find?_some hf
      simp [bumpIf, hc]
  · have h' : cs.any (keyMatch k m) = false := by
      revert h; cases cs.any (keyMatch k m) <;> simp
    rw [if_neg h, List.map_append, List.find?_append, find?_map_bumpIf,
      find?_eq_none_of_any_false h']
    simp [bumpIf, keyMatch]

theorem readCounter_bump_other (cs : List CounterRow) {k m k' m' : String}
    (hne : ¬(k' = k ∧ m' = m)) :
    readCounter (bumpCounters cs k' m') k m = readCounter cs k m := by
  unfold bumpCounters readCounter
  have hcase : ∀ c : CounterRow, keyMatch k m c = true → bumpIf k' m' c = c := by
    intro c hc
    unfold bumpIf
    rw [if_neg ?_]
    intro habs
    unfold keyMatch at hc habs
    simp only [Bool.and_eq_true, beq_iff_eq] at hc habs
    exact hne ⟨habs.1.symm.trans hc.1, habs.2.symm.trans hc.2⟩
  have hkm : keyMatch k m (⟨k', m', 0⟩ : CounterRow) = false := by
    unfold keyMatch
    simp only [Bool.and_eq_false_iff, beq_eq_false_iff_ne]
    by_cases hk : k' = k
    · right; intro hm'; exact hne ⟨hk, hm'⟩
    · left; exact hk
  by_cases h : cs.any (keyMatch k' m')
  · simp only [if_pos h, find?_map_bumpIf]
    rcases hf : cs.find? (keyMatch k m) with _ | c
    · rfl
    · have hc : keyMatch k m c = true := List.find?_some hf
      simp [hcase c hc]
  · rw [if_neg h, List.map_append, List.find?_append, find?_map_bumpIf]
    have hlast : (List.map (bumpIf k' m') [⟨k', m', 0⟩]).find? (keyMatch k m) = none := by
      simp [List.find?, keyMatch_bumpIf, hkm]
    rw [hlast]
    rcases hf : cs.find? (keyMatch k m) with _ | c
    · rfl
    · have hc : keyMatch k m c = true := List.find?_some hf
      simp [hcase c hc]

/-! ## Iterated numbering calls -/

/-- The database after `n` successive `generate_quote_number` calls with the
same arguments. -/
def genChain (db : DB) (name : String) (isInv : Bool) (my : String) : Nat → DB
  | 0 => db
  | n + 1 => (generate_quote_number (genChain db name isInv my n) name isInv my).2

/-- The string returned by the `(n+1)`-st of a run of successive
`generate_quote_number` calls with the same arguments. -/
def genOut (db : DB) (name : String) (isInv : Bool) (my : String) (n : Nat) : String :=
  (generate_quote_number (genChain db name isInv my n) name isInv my).1

theorem counters_generate (db : DB) (name : String) (isInv : Bool) (my : String) :
    (generate_quote_number db name isInv my).2.counters =
      bumpCounters db.counters (cleanName name) my := rfl

theorem readCounter_genChain (db : DB) (name : String) (isInv : Bool) (my : String) :
    ∀ n, readCounter (genChain db name isInv my n).counters (cleanName name) my =
      readCounter db.counters (cleanName name) my + n := by
  intro n
  induction n with
  | zero => rfl
  | succ n ih =>
    show readCounter (generate_quote_number (genChain db name isInv my n) name isInv my).2.counters
        (cleanName name) my = _
    rw [counters_generate, readCounter_bump_self, ih]
    omega

theorem genOut_eq (db : DB) (name : String) (isInv : Bool) (my : String) (n : Nat) :
    genOut db name isInv my n =
      (if isInv then "FA" else "SA") ++ "." ++ cleanName name ++ "." ++ my ++
        pad3 (readCounter db.counters (cleanName name) my + n + 1) := by
  unfold genOut generate_quote_number
  simp only
  rw [readCounter_bump_self, readCounter_genChain]

theorem append_pad3_inj {P : String} {x y : Nat} (h : P ++ pad3 x = P ++ pad3 y) :
    x = y := by
  have hd := congrArg String.data h
  rw [String.data_append, String.data_append] at hd
  exact padList_inj (List.append_cancel_left hd)

/-! ## `find?` on document rows -/

theorem find?_id_of_mem {l : List DocRow} {r : DocRow}
    (hnd : (l.map DocRow.id).Nodup) (hm : r ∈ l) :
    l.find? (fun d => d.id == r.id) = some r := by
  induction l with
  | nil => cases hm
  | cons a t ih =>
    rw [List.map_cons, List.nodup_cons] at hnd
    obtain ⟨ha, ht⟩ := hnd
    rcases List.mem_cons.mp hm with h | h
    · subst h
      simp [List.find?]
    · have hne : (a.id == r.id) = false := by
        rw [beq_eq_false_iff_ne]
        intro he
        exact ha (he ▸ List.mem_map_of_mem DocRow.id h)
      simp only [List.find?, hne]
      exact ih ht h

/-! ## Behaviour of `delete_quote` -/

theorem delete_invoice_spec (db : DB) (qid : Nat) (row : DocRow)
    (hnd : (db.quotes.map DocRow.id).Nodup)
    (hmem : row ∈ db.quotes) (hid : row.id = qid) (hinv : row.is_invoice = true) :
    delete_quote db qid = .ok { db with
      quotes := (db.quotes.map (fun d =>
          if d.linked_invoice_id == some qid then
            { d with is_invoiced := false, linked_invoice_id := none }
          else d)).filter (fun d => !(d.id == qid)),
      quote_items := db.quote_items.filter (fun it => !(it.quote_id == qid)),
      quote_sites := db.quote_sites.filter (fun s => !(s.quote_id == qid)) } := by
  have hfind : db.quotes.find? (fun d => d.id == qid) = some row := by
    have h := find?_id_of_mem hnd hmem
    rwa [hid] at h
  unfold delete_quote
  rw [hfind]
  simp only [hinv, Bool.not_true, Bool.false_and, Bool.false_eq_true, if_false, if_true]

theorem delete_open_quote_spec (db : DB) (qid : Nat) (row : DocRow)
    (hnd : (db.quotes.map DocRow.id).Nodup)
    (hmem : row ∈ db.quotes) (hid : row.id = qid)
    (hq : row.is_invoice = false) (hflag : row.is_invoiced = false) :
    delete_quote db qid = .ok { db with
      quotes := db.quotes.filter (fun d => !(d.id == qid)),
      quote_items := db.quote_items.filter (fun it => !(it.quote_id == qid)),
      quote_sites := db.quote_sites.filter (fun s => !(s.quote_id == qid)) } := by
  have hfind : db.quotes.find? (fun d => d.id == qid) = some row := by
    have h := find?_id_of_mem hnd hmem
    rwa [hid] at h
  unfold delete_quote
  rw [hfind]
  simp only [hq, hflag, Bool.not_false, Bool.true_and, Bool.false_eq_true, if_false]

theorem delete_invoiced_quote_blocked (db : DB) (qid : Nat) (row : DocRow)
    (hnd : (db.quotes.map DocRow.id).Nodup)
    (hmem : row ∈ db.quotes) (hid : row.id = qid)
    (hq : row.is_invoice = false) (hflag : row.is_invoiced = true) :
    delete_quote db qid = .error (.invoicedConflict (conflictMessage row.number)) := by
  have hfind : db.quotes.find? (fun d => d.id == qid) = some row := by
    have h := find?_id_of_mem hnd hmem
    rwa [hid] at h
  unfold delete_quote
  rw [hfind]
  simp only [hq, hflag, Bool.not_false, Bool.true_and, if_true]

theorem delete_quote_notFound (db : DB) (qid : Nat)
    (habs : ∀ d ∈ db.quotes, d.id ≠ qid) :
    delete_quote db qid = .error .notFound := by
  unfold delete_quote
  have hfind : db.quotes.find? (fun d => d.id == qid) = none := by
    rw [List.find?_eq_none]
    intro d hd
    simpa using habs d hd
  rw [hfind]

/-! ## Behaviour of `convert_quote_to_invoice` -/

theorem clients_generate (db : DB) (n : String) (i : Bool) (my : String) :
    (generate_quote_number db n i my).2.clients = db.clients := rfl

theorem quotes_generate (db : DB) (n : String) (i : Bool) (my : String) :
    (generate_quote_number db n i my).2.quotes = db.quotes := rfl

theorem sites_generate (db : DB) (n : String) (i : Bool) (my : String) :
    (generate_quote_number db n i my).2.quote_sites = db.quote_sites := rfl

theorem items_generate (db : DB) (n : String) (i : Bool) (my : String) :
    (generate_quote_number db n i my).2.quote_items = db.quote_items := rfl

theorem next_generate (db : DB) (n : String) (i : Bool) (my : String) :
    (generate_quote_number db n i my).2.next_doc_id = db.next_doc_id := rfl

theorem convert_notFound (db : DB) (qid : Nat) (o : String) (idate : Option String)
    (my : String) (habs : ∀ d ∈ db.quotes, d.id ≠ qid) :
    convert_quote_to_invoice db qid o idate my = (.error .notFound, db) := by
  unfold convert_quote_to_invoice
  have hfind : db.quotes.find? (fun d => d.id == qid) = none := by
    rw [List.find?_eq_none]
    intro d hd
    simpa using habs d hd
  rw [hfind]

theorem convert_success_spec (db : DB) (qid : Nat) (row : DocRow) (cl : ClientRow)
    (o : String) (idate : Option String) (my : String)
    (hnd : (db.quotes.map DocRow.id).Nodup)
    (hfresh : ∀ d ∈ db.quotes, d.id < db.next_doc_id)
    (hmem : row ∈ db.quotes) (hid : row.id = qid)
    (hcl : get_client_by_id db row.client_id = some cl)
    (hno : db.quotes.any
      (fun d => d.number == (generate_quote_number db cl.name true my).1) = false) :
    convert_quote_to_invoice db qid o idate my =
      (.ok (generate_quote_number db cl.name true my).1,
       { clients := db.clients,
         quotes := db.quotes.map (fun d =>
             if d.id == qid then
               { d with is_invoiced := true, linked_invoice_id := some db.next_doc_id }
             else d) ++
           [⟨db.next_doc_id, (generate_quote_number db cl.name true my).1,
             row.client_id, row.typology, row.quote_date, idate, true,
             some (generate_quote_number db cl.name true my).1, o,
             row.site_number, row.site_address, false, none⟩],
         quote_sites := db.quote_sites ++
           (db.quote_sites.filter (fun s => s.quote_id == qid)).map
             (fun s => { s with quote_id := db.next_doc_id }),
         quote_items := db.quote_items ++
           (db.quote_items.filter (fun it => it.quote_id == qid)).map
             (fun it => { it with quote_id := db.next_doc_id }),
         counters := bumpCounters db.counters (cleanName cl.name) my,
         next_doc_id := db.next_doc_id + 1 }) := by
  have hfind : db.quotes.find? (fun d => d.id == qid) = some row := by
    have h := find?_id_of_mem hnd hmem
    rwa [hid] at h
  have hqid_lt : qid < db.next_doc_id := hid ▸ hfresh row hmem
  have hnext_ne : (db.next_doc_id == qid) = false := by
    rw [beq_eq_false_iff_ne]
    omega
  unfold convert_quote_to_invoice
  rw [hfind]
  simp only [hcl, quotes_generate, sites_generate, items_generate, next_generate,
    clients_generate, hno, Bool.false_eq_true, if_false]
  rw [List.map_append]
  simp only [List.map_cons, List.map_nil, hnext_ne, Bool.false_eq_true, if_false,
    counters_generate]

theorem convert_error_rollback (db : DB) (qid : Nat) (o : String)
    (idate : Option String) (my : String) (e : ConvError)
    (h : (convert_quote_to_invoice db qid o idate my).1 = .error e) :
    (convert_quote_to_invoice db qid o idate my).2.quotes = db.quotes ∧
    (convert_quote_to_invoice db qid o idate my).2.quote_sites = db.quote_sites ∧
    (convert_quote_to_invoice db qid o idate my).2.quote_items = db.quote_items ∧
    (convert_quote_to_invoice db qid o idate my).2.next_doc_id = db.next_doc_id ∧
    ((e = .notFound ∨ e = .clientMissing) →
      (convert_quote_to_invoice db qid o idate my).2 = db) ∧
    (e = .uniqueViolation → ∃ row cl,
      db.quotes.find? (fun d => d.id == qid) = some row ∧
      get_client_by_id db row.client_id = some cl ∧
      (convert_quote_to_invoice db qid o idate my).2.counters =
        bumpCounters db.counters (cleanName cl.name) my) := by
  rcases hf : db.quotes.find? (fun d => d.id == qid) with _ | row
  · have hc : convert_quote_to_invoice db qid o idate my = (.error .notFound, db) := by
      unfold convert_quote_to_invoice
      rw [hf]
    rw [hc] at h ⊢
    have he : e = .notFound := by
      cases h
      rfl
    subst he
    refine ⟨rfl, rfl, rfl, rfl, fun _ => rfl, fun habs => by cases habs⟩
  · rcases hcl : get_client_by_id db row.client_id with _ | cl
    · have hc : convert_quote_to_invoice db qid o idate my = (.error .clientMissing, db) := by
        unfold convert_quote_to_invoice
        rw [hf]
        simp only [hcl]
      rw [hc] at h ⊢
      have he : e = .clientMissing := by
        cases h
        rfl
      subst he
      refine ⟨rfl, rfl, rfl, rfl, fun _ => rfl, fun habs => by cases habs⟩
    · by_cases hany : ((generate_quote_number db cl.name true my).2.quotes.any
        (fun d => d.number == (generate_quote_number db cl.name true my).1)) = true
      · have hc : convert_quote_to_invoice db qid o idate my =
            (.error .uniqueViolation, (generate_quote_number db cl.name true my).2) := by
          unfold convert_quote_to_invoice
          rw [hf]
          simp only [hcl, hany, if_true]
        rw [hc] at h ⊢
        have he : e = .uniqueViolation := by
          cases h
          rfl
        subst he
        refine ⟨quotes_generate db cl.name true my, sites_generate db cl.name true my,
          items_generate db cl.name true my, next_generate db cl.name true my, ?_, ?_⟩
        · intro habs
          rcases habs with habs | habs <;> cases habs
        · intro _
          exact ⟨row, cl, hf, hcl, counters_generate db cl.name true my⟩
      · exfalso
        have hany' : ((generate_quote_number db cl.name true my).2.quotes.any
            (fun d => d.number == (generate_quote_number db cl.name true my).1)) = false := by
          revert hany
          cases ((generate_quote_number db cl.name true my).2.quotes.any
            (fun d => d.number == (generate_quote_number db cl.name true my).1)) <;> simp
        have hc : (convert_quote_to_invoice db qid o idate my).1 =
            .ok (generate_quote_number db cl.name true my).1 := by
          unfold convert_quote_to_invoice
          rw [hf]
          simp only [hcl, hany', Bool.false_eq_true, if_false]
        rw [hc] at h
        cases h

/-! ## Behaviour of `save_quote` -/

theorem save_update_eq (db : DB) (q : Quote) (qid : Nat) (hidq : q.id = some qid) :
    save_quote db q = .ok (qid, { db with
      quotes := db.quotes.map (fun d =>
        if d.id == qid then
          { d with client_id := q.client_id, typology := q.typology,
                   quote_date := q.quote_date,
                   intervention_date := q.intervention_date,
                   invoice_number := q.invoice_number,
                   order_number := q.order_number, site_number := q.site_number,
                   site_address := q.site_address, is_invoiced := q.is_invoiced,
                   linked_invoice_id := q.linked_invoice_id }
        else d),
      quote_sites := db.quote_sites.filter (fun s => !(s.quote_id == qid))
        ++ q.sites.map (siteToRow qid),
      quote_items := db.quote_items.filter (fun it => !(it.quote_id == qid))
        ++ q.items.map (itemToRow qid) }) := by
  unfold save_quote
  rw [hidq]

/-! ## Independence of documents with distinct ids under `save_quote` -/

theorem filter_key_filter_not_key {α : Type} (key : α → Nat) (a b : Nat)
    (hne : a ≠ b) (l : List α) :
    (l.filter (fun x => !(key x == a))).filter (fun x => key x == b) =
      l.filter (fun x => key x == b) := by
  induction l with
  | nil => rfl
  | cons x t ih =>
    by_cases hxa : key x = a
    · have h1 : (!(key x == a)) = false := by simp [hxa]
      have h2 : (key x == b) = false := by simp [hxa]; omega
      simp only [List.filter_cons, h1, h2, Bool.false_eq_true, if_false, ih]
    · have h1 : (!(key x == a)) = true := by simp [hxa]
      simp only [List.filter_cons, h1, if_true, ih]

theorem filter_key_map_const_key {α β : Type} (key : β → Nat) (a b : Nat)
    (hne : a ≠ b) (f : α → β) (hf : ∀ x, key (f x) = a) (l : List α) :
    (l.map f).filter (fun x => key x == b) = [] := by
  induction l with
  | nil => rfl
  | cons x t ih =>
    have h1 : (key (f x) == b) = false := by
      rw [hf x]
      simp
      omega
    simp only [List.map_cons, List.filter_cons, h1, Bool.false_eq_true, if_false, ih]

theorem filter_id_map_if (l : List DocRow) (a b : Nat) (hne : a ≠ b)
    (g : DocRow → DocRow) (hg : ∀ d, (g d).id = d.id) :
    (l.map (fun d => if d.id == a then g d else d)).filter (fun d => d.id == b) =
      l.filter (fun d => d.id == b) := by
  induction l with
  | nil => rfl
  | cons d t ih =>
    by_cases hda : d.id = a
    · have h1 : (d.id == a) = true := by simp [hda]
      have h2 : ((g d).id == b) = false := by
        rw [hg d]
        simp [hda]
        omega
      have h3 : (d.id == b) = false := by simp [hda]; omega
      simp only [List.map_cons, List.filter_cons, h1, if_true, h2, h3,
        Bool.false_eq_true, if_false, ih]
    · have h1 : (d.id == a) = false := by simp [hda]
      simp only [List.map_cons, List.filter_cons, h1, Bool.false_eq_true, if_false, ih]

theorem save_preserves_other_doc (dbx : DB) (q' : Quote) (a b : Nat)
    (hne : a ≠ b) (hid' : q'.id = some a) :
    ∃ db2, save_quote dbx q' = .ok (a, db2) ∧
      db2.quote_sites.filter (fun s => s.quote_id == b) =
        dbx.quote_sites.filter (fun s => s.quote_id == b) ∧
      db2.quote_items.filter (fun it => it.quote_id == b) =
        dbx.quote_items.filter (fun it => it.quote_id == b) ∧
      db2.quotes.filter (fun d => d.id == b) =
        dbx.quotes.filter (fun d => d.id == b) := by
  refine ⟨_, save_update_eq dbx q' a hid', ?_, ?_, ?_⟩
  · rw [List.filter_append,
      filter_key_filter_not_key SiteRow.quote_id a b hne,
      filter_key_map_const_key SiteRow.quote_id a b hne (siteToRow a) (fun _ => rfl),
      List.append_nil]
  · rw [List.filter_append,
      filter_key_filter_not_key ItemRow.quote_id a b hne,
      filter_key_map_const_key ItemRow.quote_id a b hne (itemToRow a) (fun _ => rfl),
      List.append_nil]
  · exact filter_id_map_if dbx.quotes a b hne _ (fun _ => rfl)

/-! ## Concrete fixtures -/

def clientAcme : ClientRow := ⟨1, "Acme Co", "", "", "", ""⟩

def dbNoDocs : DB := ⟨[clientAcme], [], [], [], [], 1⟩

def quoteRow1 : DocRow :=
  ⟨1, "SA.ACMECO.052025001", 1, "TT", some "2025-05-01", none, false, none,
   "", "", "", false, none⟩

def siteRow1 : SiteRow :=
  ⟨1, "S1", "38 rue Dunois", "75013", "PARIS", "", "", "installation", 100⟩

def itemRow1 : ItemRow := ⟨1, "ligne ancienne", 50, 2⟩

def dbOneQuote : DB :=
  ⟨[clientAcme], [quoteRow1], [siteRow1], [itemRow1], [⟨"ACMECO", "052025", 1⟩], 2⟩

def dbInvoiced : DB := (convert_quote_to_invoice dbOneQuote 1 "BC77" none "052025").2

def collDoc : DocRow :=
  ⟨2, "FA.ACMECO.052025002", 1, "", none, none, false, none, "", "", "", false, none⟩

def dbCollision : DB :=
  ⟨[clientAcme], [quoteRow1, collDoc], [siteRow1], [itemRow1],
   [⟨"ACMECO", "052025", 1⟩], 3⟩

def dbDangling : DB := ⟨[], [quoteRow1], [], [], [], 2⟩

/-! ## Claim theorems -/

def quoteTwoSites : Quote := { sites := [{ price_ht := 100 }, { price_ht := 250 }] }

/-- Claim C5: `generate_quote_number` formats its result as
`prefix.token.MMYYYYcounter` with `SA`/`FA` prefixes, the client token
uppercased, restricted to `[A-Za-z0-9]` and truncated to 10 characters, and
the counter zero-padded to at least three digits yet growing beyond 999;
an empty token still yields a number; for client "Acme Co" with no prior
documents in May 2025 the first two quote numbers are
`SA.ACMECO.052025001` and `SA.ACMECO.052025002`. -/
theorem c5_number_format :
    (∀ (db : DB) (name : String) (isInv : Bool) (my : String),
      (generate_quote_number db name isInv my).1 =
        (if isInv then "FA" else "SA") ++ "." ++ cleanName name ++ "." ++ my ++
          pad3 (readCounter db.counters (cleanName name) my + 1)) ∧
    cleanName "Acme Co" = "ACMECO" ∧
    (generate_quote_number dbNoDocs "Acme Co" false "052025").1 = "SA.ACMECO.052025001" ∧
    (generate_quote_number
        (generate_quote_number dbNoDocs "Acme Co" false "052025").2
        "Acme Co" false "052025").1 = "SA.ACMECO.052025002" ∧
    cleanName "@#!" = "" ∧
    (generate_quote_number dbNoDocs "@#!" false "052025").1 = "SA..052025001" ∧
    (∀ n : Nat, 3 ≤ (pad3 n).length) ∧
    pad3 1 = "001" ∧ pad3 999 = "999" ∧ pad3 1000 = "1000" := by
  refine ⟨?_, by decide, by decide, by decide, by decide, by decide,
    three_le_pad3_length, by decide, by decide, by decide⟩
  intro db name isInv my
  have h := genOut_eq db name isInv my 0
  unfold genOut genChain at h
  rw [h]

/-- Claim C6: for a fixed client name, kind and period, successive
`generate_quote_number` calls strictly increase the stored counter by one
each time, never produce the same full number twice, and calls for a
different `(client token, period)` key leave the counter untouched. -/
theorem c6_numbers_strictly_increase_never_repeat :
    (∀ (db : DB) (name : String) (isInv : Bool) (my : String) (n : Nat),
      readCounter (genChain db name isInv my (n + 1)).counters (cleanName name) my =
        readCounter (genChain db name isInv my n).counters (cleanName name) my + 1) ∧
    (∀ (db : DB) (name : String) (isInv : Bool) (my : String) (m n : Nat),
      m ≠ n → genOut db name isInv my m ≠ genOut db name isInv my n) ∧
    (∀ (db : DB) (name name2 : String) (isInv2 : Bool) (my my2 : String),
      ¬(cleanName name2 = cleanName name ∧ my2 = my) →
      readCounter (generate_quote_number db name2 isInv2 my2).2.counters
          (cleanName name) my =
        readCounter db.counters (cleanName name) my) := by
  refine ⟨?_, ?_, ?_⟩
  · intro db name isInv my n
    show readCounter
        (generate_quote_number (genChain db name isInv my n) name isInv my).2.counters
        (cleanName name) my = _
    rw [counters_generate, readCounter_bump_self]
  · intro db name isInv my m n hmn habs
    rw [genOut_eq, genOut_eq] at habs
    have := append_pad3_inj habs
    omega
  · intro db name name2 isInv2 my my2 hne
    rw [counters_generate]
    exact readCounter_bump_other db.counters hne

/-- Claim C6 witness: two successive calls on a concrete database return
distinct numbers. -/
theorem c6_witness :
    genOut dbNoDocs "Acme Co" false "052025" 0 ≠
      genOut dbNoDocs "Acme Co" false "052025" 1 :=
  c6_numbers_strictly_increase_never_repeat.2.1 dbNoDocs "Acme Co" false "052025"
    0 1 (by decide)

/-- Claim C8: for every document, `total_ht` is the sum of the sites'
prices plus `price × quantity` over legacy items, `total_tva` is
`total_ht × 0.20`, `total_ttc` their sum, all recomputed from the current
line items; a quote with two sites at 100.00 and 250.00 totals 350.00,
70.00 and 420.00. -/
theorem c8_totals :
    (∀ q : Quote,
      q.total_ht = (q.sites.map (fun s => s.price_ht)).sum +
        (q.items.map (fun it => it.price_ht * (it.quantity : ℚ))).sum ∧
      q.total_tva = q.total_ht * vat_rate ∧
      q.total_ttc = q.total_ht + q.total_tva) ∧
    vat_rate = 1 / 5 ∧
    (∀ (q : Quote) (s' : List SiteItem) (i' : List QuoteItem),
      Quote.total_ht { q with sites := s', items := i' } =
        (s'.map (fun s => s.price_ht)).sum +
          (i'.map (fun it => it.price_ht * (it.quantity : ℚ))).sum) ∧
    quoteTwoSites.total_ht = 350 ∧ quoteTwoSites.total_tva = 70 ∧
    quoteTwoSites.total_ttc = 420 := by
  refine ⟨fun q => ⟨rfl, rfl, rfl⟩, rfl, fun q s' i' => rfl, ?_, ?_, ?_⟩ <;>
    norm_num [quoteTwoSites, Quote.total_ht, Quote.total_tva, Quote.total_ttc,
      SiteItem.total_ht, QuoteItem.total_ht, vat_rate]

/-- Claim C1 (amended): for every stored quote whose client record exists
and whose freshly generated invoice number does not collide with a stored
document number, `convert_quote_to_invoice` appends exactly one new
document of kind invoice bearing that fresh number, the same client and
typology, and row-level copies of the quote's sites and legacy items owned
by the new id; it flags the source quote with `is_invoiced = true` and
`linked_invoice_id` pointing at the new invoice; it returns the new
number; subsequent edits of either document leave the other document and
its child rows untouched; and a missing quote id fails with not-found,
writing nothing. -/
theorem c1_convert_creates_linked_invoice
    (db : DB) (qid : Nat) (row : DocRow) (cl : ClientRow)
    (o : String) (idate : Option String) (my : String)
    (hWF : WF db) (hmem : row ∈ db.quotes) (hid : row.id = qid)
    (hq : row.is_invoice = false)
    (hcl : get_client_by_id db row.client_id = some cl)
    (hno : db.quotes.any
      (fun d => d.number == (generate_quote_number db cl.name true my).1) = false) :
    convert_quote_to_invoice db qid o idate my =
      (.ok (generate_quote_number db cl.name true my).1,
       { clients := db.clients,
         quotes := db.quotes.map (fun d =>
             if d.id == qid then
               { d with is_invoiced := true, linked_invoice_id := some db.next_doc_id }
             else d) ++
           [⟨db.next_doc_id, (generate_quote_number db cl.name true my).1,
             row.client_id, row.typology, row.quote_date, idate, true,
             some (generate_quote_number db cl.name true my).1, o,
             row.site_number, row.site_address, false, none⟩],
         quote_sites := db.quote_sites ++
           (db.quote_sites.filter (fun s => s.quote_id == qid)).map
             (fun s => { s with quote_id := db.next_doc_id }),
         quote_items := db.quote_items ++
           (db.quote_items.filter (fun it => it.quote_id == qid)).map
             (fun it => { it with quote_id := db.next_doc_id }),
         counters := bumpCounters db.counters (cleanName cl.name) my,
         next_doc_id := db.next_doc_id + 1 }) ∧
    (∀ d ∈ db.quotes, d.number ≠ (generate_quote_number db cl.name true my).1) ∧
    (∀ q' : Quote, q'.id = some qid →
      ∃ db2, save_quote (convert_quote_to_invoice db qid o idate my).2 q' =
          .ok (qid, db2) ∧
        db2.quote_sites.filter (fun s => s.quote_id == db.next_doc_id) =
          (convert_quote_to_invoice db qid o idate my).2.quote_sites.filter
            (fun s => s.quote_id == db.next_doc_id) ∧
        db2.quote_items.filter (fun it => it.quote_id == db.next_doc_id) =
          (convert_quote_to_invoice db qid o idate my).2.quote_items.filter
            (fun it => it.quote_id == db.next_doc_id) ∧
        db2.quotes.filter (fun d => d.id == db.next_doc_id) =
          (convert_quote_to_invoice db qid o idate my).2.quotes.filter
            (fun d => d.id == db.next_doc_id)) ∧
    (∀ q2 : Quote, q2.id = some db.next_doc_id →
      ∃ db3, save_quote (convert_quote_to_invoice db qid o idate my).2 q2 =
          .ok (db.next_doc_id, db3) ∧
        db3.quote_sites.filter (fun s => s.quote_id == qid) =
          (convert_quote_to_invoice db qid o idate my).2.quote_sites.filter
            (fun s => s.quote_id == qid) ∧
        db3.quote_items.filter (fun it => it.quote_id == qid) =
          (convert_quote_to_invoice db qid o idate my).2.quote_items.filter
            (fun it => it.quote_id == qid) ∧
        db3.quotes.filter (fun d => d.id == qid) =
          (convert_quote_to_invoice db qid o idate my).2.quotes.filter
            (fun d => d.id == qid)) ∧
    (∀ (db0 : DB) (qid0 : Nat), (∀ d ∈ db0.quotes, d.id ≠ qid0) →
      convert_quote_to_invoice db0 qid0 o idate my = (.error .notFound, db0)) := by
  have hqlt : qid < db.next_doc_id := hid ▸ hWF.2.2 row hmem
  have hmain := convert_success_spec db qid row cl o idate my hWF.1 hWF.2.2
    hmem hid hcl hno
  refine ⟨hmain, ?_, ?_, ?_, ?_⟩
  · intro d hd habs
    have h' := (List.any_eq_false.mp hno) d hd
    apply h'
    rw [habs]
    exact beq_self_eq_true _
  · intro q' hq'
    exact save_preserves_other_doc (convert_quote_to_invoice db qid o idate my).2
      q' qid db.next_doc_id (by omega) hq'
  · intro q2 hq2
    exact save_preserves_other_doc (convert_quote_to_invoice db qid o idate my).2
      q2 db.next_doc_id qid (by omega) hq2
  · intro db0 qid0 habs
    exact convert_notFound db0 qid0 o idate my habs

/-- Claim C1 witness: converting the one stored quote of a concrete
database creates the expected invoice, links the quote to it and returns
the generated invoice number. -/
theorem c1_witness :
    convert_quote_to_invoice dbOneQuote 1 "BC77" (some "2025-06-01") "052025" =
      (.ok "FA.ACMECO.052025002",
       ⟨[clientAcme],
        [{ quoteRow1 with is_invoiced := true, linked_invoice_id := some 2 },
         ⟨2, "FA.ACMECO.052025002", 1, "TT", some "2025-05-01", some "2025-06-01",
          true, some "FA.ACMECO.052025002", "BC77", "", "", false, none⟩],
        [siteRow1, { siteRow1 with quote_id := 2 }],
        [itemRow1, { itemRow1 with quote_id := 2 }],
        [⟨"ACMECO", "052025", 2⟩], 3⟩) := by
  have h := (c1_convert_creates_linked_invoice dbOneQuote 1 quoteRow1 clientAcme
    "BC77" (some "2025-06-01") "052025" (by decide) (by decide) (by decide)
    (by decide) (by decide) (by decide)).1
  rw [h]
  decide

/-- Claim C1 counterexample: in a reachable state holding a document that
already bears the number the engine will generate next, the stored quote
with id 1 exists, yet conversion fails on the number uniqueness constraint
and creates no invoice; likewise a stored quote whose client row is
missing makes conversion fail before writing anything. -/
theorem c1_counterexample :
    ((∃ d ∈ dbCollision.quotes, d.id = 1 ∧ d.is_invoice = false) ∧
     (convert_quote_to_invoice dbCollision 1 "BC" none "052025").1 =
       .error .uniqueViolation ∧
     (convert_quote_to_invoice dbCollision 1 "BC" none "052025").2.quotes =
       dbCollision.quotes ∧
     (convert_quote_to_invoice dbCollision 1 "BC" none "052025").2.quote_sites =
       dbCollision.quote_sites) ∧
    ((∃ d ∈ dbDangling.quotes, d.id = 1) ∧
     convert_quote_to_invoice dbDangling 1 "BC" none "052025" =
       (.error .clientMissing, dbDangling)) := by decide

/-- The database reached from `dbInvoiced` by deleting the invoice. -/
def dbReopened : DB :=
  ⟨[clientAcme], [quoteRow1], [siteRow1], [itemRow1], [⟨"ACMECO", "052025", 2⟩], 3⟩

/-- Claim C2 (amended): a second `convert_quote_to_invoice` on a quote whose
`is_invoiced` flag is already set is not rejected — it succeeds and appends
yet another invoice document — while conversion after deleting the linked
invoice also succeeds and assigns a new, different invoice number. -/
theorem c2_reconversion_not_rejected
    (db : DB) (qid : Nat) (row : DocRow) (cl : ClientRow)
    (o : String) (idate : Option String) (my : String)
    (hWF : WF db) (hmem : row ∈ db.quotes) (hid : row.id = qid)
    (hq : row.is_invoice = false) (hflag : row.is_invoiced = true)
    (hcl : get_client_by_id db row.client_id = some cl)
    (hno : db.quotes.any
      (fun d => d.number == (generate_quote_number db cl.name true my).1) = false) :
    ((convert_quote_to_invoice db qid o idate my).1 =
      .ok (generate_quote_number db cl.name true my).1 ∧
     (convert_quote_to_invoice db qid o idate my).2.quotes.length =
       db.quotes.length + 1) ∧
    (delete_quote dbInvoiced 2 = .ok dbReopened ∧
     (convert_quote_to_invoice dbReopened 1 "BC99" none "052025").1 =
       .ok "FA.ACMECO.052025003" ∧
     ("FA.ACMECO.052025003" : String) ≠ "FA.ACMECO.052025002") := by
  have hmain := convert_success_spec db qid row cl o idate my hWF.1 hWF.2.2
    hmem hid hcl hno
  refine ⟨⟨?_, ?_⟩, by decide, by decide, by decide⟩
  · rw [hmain]
  · rw [hmain]
    simp [List.length_append, List.length_map]

/-- Claim C2 witness: in the concrete state where quote 1 is already
invoiced (linked to invoice 2), a further conversion call succeeds. -/
theorem c2_witness :
    (convert_quote_to_invoice dbInvoiced 1 "BC88" none "052025").1 =
      .ok "FA.ACMECO.052025003" := by
  have h := (c2_reconversion_not_rejected dbInvoiced 1
    { quoteRow1 with is_invoiced := true, linked_invoice_id := some 2 } clientAcme
    "BC88" none "052025" (by decide) (by decide) (by decide) (by decide)
    (by decide) (by decide) (by decide)).1.1
  exact h.trans (by decide)

/-- Claim C2 counterexample: with quote 1 already in state invoiced
(`is_invoiced = true`, linked to invoice 2), a further conversion call does
not fail and is not rejected: it returns a fresh number and appends a
second invoice document. -/
theorem c2_counterexample :
    (∃ d ∈ dbInvoiced.quotes, d.id = 1 ∧ d.is_invoice = false ∧
      d.is_invoiced = true ∧ d.linked_invoice_id = some 2) ∧
    (convert_quote_to_invoice dbInvoiced 1 "BC88" none "052025").1 =
      .ok "FA.ACMECO.052025003" ∧
    (convert_quote_to_invoice dbInvoiced 1 "BC88" none "052025").2.quotes.length =
      dbInvoiced.quotes.length + 1 ∧
    (∃ d ∈ (convert_quote_to_invoice dbInvoiced 1 "BC88" none "052025").2.quotes,
      d.id = 3 ∧ d.is_invoice = true) := by decide

/-- Claim C3 (amended): when a conversion fails, the documents, sites and
items tables are rolled back (not-found and missing-client failures leave
the whole state untouched), but the numbering counter update runs in its
own separately committed transaction, so a failure on the invoice insert
leaves the counter already bumped. -/
theorem c3_failure_rollback (db : DB) (qid : Nat) (o : String)
    (idate : Option String) (my : String) (e : ConvError)
    (h : (convert_quote_to_invoice db qid o idate my).1 = .error e) :
    (convert_quote_to_invoice db qid o idate my).2.quotes = db.quotes ∧
    (convert_quote_to_invoice db qid o idate my).2.quote_sites = db.quote_sites ∧
    (convert_quote_to_invoice db qid o idate my).2.quote_items = db.quote_items ∧
    (convert_quote_to_invoice db qid o idate my).2.next_doc_id = db.next_doc_id ∧
    ((e = .notFound ∨ e = .clientMissing) →
      (convert_quote_to_invoice db qid o idate my).2 = db) ∧
    (e = .uniqueViolation → ∃ row cl,
      db.quotes.find? (fun d => d.id == qid) = some row ∧
      get_client_by_id db row.client_id = some cl ∧
      (convert_quote_to_invoice db qid o idate my).2.counters =
        bumpCounters db.counters (cleanName cl.name) my) :=
  convert_error_rollback db qid o idate my e h

/-- Claim C3 witness: at the concrete colliding state the failed conversion
leaves the document tables untouched. -/
theorem c3_witness :
    (convert_quote_to_invoice dbCollision 1 "BC" none "052025").2.quotes =
      dbCollision.quotes ∧
    (convert_quote_to_invoice dbCollision 1 "BC" none "052025").2.quote_sites =
      dbCollision.quote_sites := by
  have h := c3_failure_rollback dbCollision 1 "BC" none "052025"
    .uniqueViolation (by decide)
  exact ⟨h.1, h.2.1⟩

/-- Claim C3 counterexample: a conversion that fails part-way (on the
invoice insert) nevertheless leaves the numbering counter changed — the
counter update is not inside the conversion transaction. -/
theorem c3_counterexample :
    (convert_quote_to_invoice dbCollision 1 "BC" none "052025").1 =
      .error .uniqueViolation ∧
    (convert_quote_to_invoice dbCollision 1 "BC" none "052025").2.counters ≠
      dbCollision.counters := by decide

/-- The invoice document created inside `dbInvoiced`. -/
def invoiceRowConv : DocRow :=
  ⟨2, "FA.ACMECO.052025002", 1, "TT", some "2025-05-01", none, true,
   some "FA.ACMECO.052025002", "BC77", "", "", false, none⟩

/-- Claim C4: deleting a stored invoice always succeeds; it resets every
quote whose `linked_invoice_id` equals the deleted invoice's id back to
`is_invoiced = false` / `linked_invoice_id = none`, and cascade-deletes
the invoice's items, sites and its own row. -/
theorem c4_delete_invoice_always_succeeds (db : DB) (qid : Nat) (row : DocRow)
    (hWF : WF db) (hmem : row ∈ db.quotes) (hid : row.id = qid)
    (hinv : row.is_invoice = true) :
    delete_quote db qid = .ok { db with
      quotes := (db.quotes.map (fun d =>
          if d.linked_invoice_id == some qid then
            { d with is_invoiced := false, linked_invoice_id := none }
          else d)).filter (fun d => !(d.id == qid)),
      quote_items := db.quote_items.filter (fun it => !(it.quote_id == qid)),
      quote_sites := db.quote_sites.filter (fun s => !(s.quote_id == qid)) } :=
  delete_invoice_spec db qid row hWF.1 hmem hid hinv

/-- Claim C4 witness: deleting the concrete invoice returns the source
quote to the open state and removes the invoice's child rows. -/
theorem c4_witness : delete_quote dbInvoiced 2 = .ok dbReopened := by
  have h := c4_delete_invoice_always_succeeds dbInvoiced 2 invoiceRowConv
    (by decide) (by decide) (by decide) (by decide)
  rw [h]
  decide

/-- Claim C7 (amended): deleting a quote succeeds exactly while its
`is_invoiced` flag is false, cascade-deleting its sites, items and row; if
the flag is set, it fails with a conflict whose message carries the
quote's own number (and a fixed instruction to delete the corresponding
invoice first), and nothing is deleted. -/
theorem c7_delete_quote_guard (db : DB) (qid : Nat) (row : DocRow)
    (hWF : WF db) (hmem : row ∈ db.quotes) (hid : row.id = qid)
    (hq : row.is_invoice = false) :
    (row.is_invoiced = true →
      delete_quote db qid =
        .error (.invoicedConflict (conflictMessage row.number))) ∧
    (row.is_invoiced = false →
      delete_quote db qid = .ok { db with
        quotes := db.quotes.filter (fun d => !(d.id == qid)),
        quote_items := db.quote_items.filter (fun it => !(it.quote_id == qid)),
        quote_sites := db.quote_sites.filter (fun s => !(s.quote_id == qid)) }) :=
  ⟨fun hflag => delete_invoiced_quote_blocked db qid row hWF.1 hmem hid hq hflag,
   fun hflag => delete_open_quote_spec db qid row hWF.1 hmem hid hq hflag⟩

/-- Claim C7 witness: deleting the invoiced quote 1 fails with the conflict
message, and deleting an open quote cascade-deletes it. -/
theorem c7_witness :
    delete_quote dbInvoiced 1 =
      .error (.invoicedConflict ("Impossible de supprimer le devis \x27SA.ACMECO.052025001\x27 : il a été converti en facture. Veuillez d\x27abord supprimer la facture correspondante.")) ∧
    delete_quote dbOneQuote 1 =
      .ok ⟨[clientAcme], [], [], [], [⟨"ACMECO", "052025", 1⟩], 2⟩ := by
  constructor
  · have h := (c7_delete_quote_guard dbInvoiced 1
      { quoteRow1 with is_invoiced := true, linked_invoice_id := some 2 }
      (by decide) (by decide) (by decide) (by decide)).1 (by decide)
    rw [h]
    decide
  · have h := (c7_delete_quote_guard dbOneQuote 1 quoteRow1
      (by decide) (by decide) (by decide) (by decide)).2 (by decide)
    rw [h]
    decide

def quoteLinked2 : DocRow :=
  { quoteRow1 with is_invoiced := true, linked_invoice_id := some 2 }

def invoiceRow2 : DocRow :=
  ⟨2, "FA.ACMECO.052025001", 1, "TT", none, some "2025-06-01", true,
   some "FA.ACMECO.052025001", "BC77", "", "", false, none⟩

def dbBlockA : DB := ⟨[clientAcme], [quoteLinked2, invoiceRow2], [], [], [], 3⟩

def quoteLinked7 : DocRow :=
  { quoteRow1 with is_invoiced := true, linked_invoice_id := some 7 }

def invoiceRow7 : DocRow :=
  ⟨7, "FA.ACMECO.052025099", 1, "TT", none, some "2025-06-01", true,
   some "FA.ACMECO.052025099", "BC99", "", "", false, none⟩

def dbBlockB : DB := ⟨[clientAcme], [quoteLinked7, invoiceRow7], [], [], [], 8⟩

/-- Claim C7 counterexample: two states whose blocking invoices differ (id 2
with number FA.ACMECO.052025001 versus id 7 with number FA.ACMECO.052025099)
produce the very same conflict error, whose message carries only the
quote's own number — so the error does not name the blocking invoice. -/
theorem c7_counterexample :
    delete_quote dbBlockA 1 = delete_quote dbBlockB 1 ∧
    (∃ d ∈ dbBlockA.quotes, d.id = 1 ∧ d.linked_invoice_id = some 2) ∧
    (∃ d ∈ dbBlockB.quotes, d.id = 1 ∧ d.linked_invoice_id = some 7) ∧
    delete_quote dbBlockA 1 =
      .error (.invoicedConflict ("Impossible de supprimer le devis \x27SA.ACMECO.052025001\x27 : il a été converti en facture. Veuillez d\x27abord supprimer la facture correspondante.")) := by
  decide

/-- Claim C9: saving a document whose non-null id matches no stored row
does not fail: the header update touches no row, the call reports success
returning that id, and the document's sites and legacy items are inserted
as child rows referencing the nonexistent document id. -/
theorem c9_save_phantom_id (db : DB) (q : Quote) (i : Nat)
    (hidq : q.id = some i) (habs : ∀ d ∈ db.quotes, d.id ≠ i) :
    save_quote db q = .ok (i, { db with
      quote_sites := db.quote_sites.filter (fun s => !(s.quote_id == i))
        ++ q.sites.map (siteToRow i),
      quote_items := db.quote_items.filter (fun it => !(it.quote_id == i))
        ++ q.items.map (itemToRow i) }) ∧
    (∀ s ∈ q.sites, (siteToRow i s).quote_id = i) ∧
    (∀ it ∈ q.items, (itemToRow i it).quote_id = i) := by
  refine ⟨?_, fun s _ => rfl, fun it _ => rfl⟩
  rw [save_update_eq db q i hidq]
  have hquotes : db.quotes.map (fun d =>
      if d.id == i then
        { d with client_id := q.client_id, typology := q.typology,
                 quote_date := q.quote_date,
                 intervention_date := q.intervention_date,
                 invoice_number := q.invoice_number,
                 order_number := q.order_number, site_number := q.site_number,
                 site_address := q.site_address, is_invoiced := q.is_invoiced,
                 linked_invoice_id := q.linked_invoice_id }
      else d) = db.quotes :=
    (List.map_congr_left (fun d hd => by
      have hne : (d.id == i) = false := by
        rw [beq_eq_false_iff_ne]
        exact habs d hd
      simp only [hne, Bool.false_eq_true, if_false])).trans (List.map_id' db.quotes)
  rw [hquotes]

def quotePhantom : Quote :=
  { id := some 42, number := "X", client_id := 1,
    sites := [⟨"S9", "", "", "", "", "", "desc", 7⟩],
    items := [⟨"it", 3, 2⟩] }

/-- Claim C9 witness: saving a document with phantom id 42 into a concrete
database succeeds, leaves the documents table unchanged and inserts the
child rows under quote_id 42. -/
theorem c9_witness :
    save_quote dbOneQuote quotePhantom = .ok (42, { dbOneQuote with
      quote_sites := [siteRow1, ⟨42, "S9", "", "", "", "", "", "desc", 7⟩],
      quote_items := [itemRow1, ⟨42, "it", 3, 2⟩] }) := by
  have h := (c9_save_phantom_id dbOneQuote quotePhantom 42 (by decide)
    (by decide)).1
  rw [h]
  decide

def quoteL5a : DocRow :=
  ⟨1, "SA.X.001", 1, "", none, none, false, none, "", "", "", true, some 5⟩

def quoteL5b : DocRow :=
  ⟨2, "SA.X.002", 1, "", none, none, false, none, "", "", "", true, some 5⟩

def invoiceRow5 : DocRow :=
  ⟨5, "FA.X.001", 1, "", none, none, true, some "FA.X.001", "BC", "", "", false, none⟩

def dbTwoLinked : DB :=
  ⟨[clientAcme], [quoteL5a, quoteL5b, invoiceRow5],
   [⟨5, "S5", "", "", "", "", "", "w", 10⟩], [], [], 9⟩

/-- Claim C10: the reset performed when an invoice is deleted applies to
every stored document whose `linked_invoice_id` equals the deleted id:
afterwards no document references the deleted invoice, and every formerly
linked quote survives with its flags reset. -/
theorem c10_delete_invoice_resets_all (db : DB) (qid : Nat) (row : DocRow)
    (hWF : WF db) (hmem : row ∈ db.quotes) (hid : row.id = qid)
    (hinv : row.is_invoice = true) :
    ∃ db', delete_quote db qid = .ok db' ∧
      (∀ d ∈ db'.quotes, d.linked_invoice_id ≠ some qid) ∧
      (∀ d ∈ db.quotes, d.linked_invoice_id = some qid → d.id ≠ qid →
        ({ d with is_invoiced := false, linked_invoice_id := none } : DocRow)
          ∈ db'.quotes) := by
  refine ⟨_, delete_invoice_spec db qid row hWF.1 hmem hid hinv, ?_, ?_⟩
  · intro d hd
    rw [List.mem_filter] at hd
    obtain ⟨hdm, _⟩ := hd
    rw [List.mem_map] at hdm
    obtain ⟨d0, hd0, hmap⟩ := hdm
    by_cases hc : (d0.linked_invoice_id == some qid) = true
    · rw [if_pos hc] at hmap
      rw [← hmap]
      simp
    · rw [if_neg hc] at hmap
      rw [← hmap]
      intro hlink
      apply hc
      rw [hlink]
      exact beq_self_eq_true _
  · intro d hd hlink hdne
    rw [List.mem_filter]
    refine ⟨?_, ?_⟩
    · rw [List.mem_map]
      refine ⟨d, hd, ?_⟩
      rw [if_pos (by rw [hlink]; exact beq_self_eq_true _)]
    · simp [hdne]

/-- Claim C10 witness: deleting invoice 5, which two quotes reference,
resets both of them. -/
theorem c10_witness :
    ∃ db', delete_quote dbTwoLinked 5 = .ok db' ∧
      (∀ d ∈ db'.quotes, d.linked_invoice_id ≠ some 5) ∧
      (∀ d ∈ dbTwoLinked.quotes, d.linked_invoice_id = some 5 → d.id ≠ 5 →
        ({ d with is_invoiced := false, linked_invoice_id := none } : DocRow)
          ∈ db'.quotes) :=
  c10_delete_invoice_resets_all dbTwoLinked 5 invoiceRow5 (by decide)
    (by decide) (by decide) (by decide)

end SeeAll
